import Mathlib

/-!
Verification of the ramses mip-mapped 2D texture buffer resource
(`ramses::Texture2DBuffer`, declared in
`src/client/ramses-client/ramses-client-api/include/ramses-client-api/Texture2DBuffer.h`)
and of the scene-info equality operators
(`ramses_internal::SceneInfo`, defined inline in
`src/framework/SceneGraph/SceneAPI/include/SceneAPI/SceneId.h`).

The repository snapshot contains only the public header of `Texture2DBuffer`
(declarations and API documentation); the implementation class
`Texture2DBufferImpl` is not part of the snapshot.  The operational
definitions for the buffer are therefore modelled from the specification's
description of the data model and operations, faithful to its words; the
`SceneInfo` operators are translated directly from the source header.
-/

namespace Ramses

/-- Modelled from the spec: the texel format enumeration (`ETextureFormat`
from `TextureEnums.h`, not in the snapshot).  A closed enumeration with a
few uncompressed formats and one block-compressed format (`ETC2RGB`), which
the Texel Format Table does not resolve to a per-texel byte size. -/
inductive ETextureFormat where
  | r8
  | rg8
  | rgb8
  | rgba8
  | rgb565
  | etc2rgb
deriving DecidableEq

/-- Modelled from the spec: the Texel Format Table's
`bytesPerTexel(format) -> uint` lookup (§4.1).  Returns the per-texel byte
size for uncompressed formats and `none` ("not applicable") for
block-compressed formats, which a buffer construction must reject. -/
def bytesPerTexel : ETextureFormat → Option Nat
  | .r8 => some 1
  | .rg8 => some 2
  | .rgb8 => some 3
  | .rgba8 => some 4
  | .rgb565 => some 2
  | .etc2rgb => none

/-- The status values an operation can report.  In the source, operations
return `status_t` where `StatusOK` denotes success and other values resolve
to error messages; the spec's error kinds are `InvalidArgument`,
`InvalidMipLevel` and `RegionOutOfBounds` (§7). -/
inductive Status where
  | statusOK
  | invalidArgument
  | invalidMipLevel
  | regionOutOfBounds
deriving DecidableEq

/-- The numeric value of a status as a `status_t` (`uint32_t`): `StatusOK`
is `0`, every error kind is a non-zero error-message index. -/
def Status.code : Status → Nat
  | .statusOK => 0
  | .invalidArgument => 1
  | .invalidMipLevel => 2
  | .regionOutOfBounds => 3

/-- The status reported by a fallible operation modelled as `Except`. -/
def reportedStatus {α : Type} : Except Status α → Status
  | .ok _ => .statusOK
  | .error e => e

/-- Modelled from the spec: the derived mip-chain geometry (§3,
MipLevelDescriptor): one dimension of level `i` is
`max(1, base >> i)` — the floor-halved predecessor clamped to 1. -/
def mipLevelDim (base i : Nat) : Nat := max 1 (base >>> i)

/-- Modelled from the spec: the MipMappedTextureBuffer resource entity
(§3): a texel format and mip level count fixed at construction, the base
size the geometry chain is derived from, and per-level byte storage
(`levels`), one byte sequence per mip level. -/
structure Texture2DBuffer where
  format : ETextureFormat
  baseWidth : Nat
  baseHeight : Nat
  mipLevelCount : Nat
  levels : List (List Nat)
deriving DecidableEq

/-- Width of mip level `i`, derived from the base width. -/
def Texture2DBuffer.levelWidth (b : Texture2DBuffer) (i : Nat) : Nat :=
  mipLevelDim b.baseWidth i

/-- Height of mip level `i`, derived from the base height. -/
def Texture2DBuffer.levelHeight (b : Texture2DBuffer) (i : Nat) : Nat :=
  mipLevelDim b.baseHeight i

/-- Bytes per texel of the buffer's format (`0` stands in for the
"not applicable" lookup result, which no constructed buffer exhibits). -/
def Texture2DBuffer.bpt (b : Texture2DBuffer) : Nat :=
  (bytesPerTexel b.format).getD 0

/-- Modelled from the spec: `create(format, baseWidth, baseHeight,
mipLevelCount)` (§4.2).  Validates `baseWidth ≥ 1`, `baseHeight ≥ 1`,
`mipLevelCount ≥ 1` and that the format resolves in the Texel Format
Table; on success allocates storage of `width_i * height_i *
bytesPerTexel(format)` bytes for every level (initial content is
unspecified by the contract; the model takes the representative content
of all-zero bytes), otherwise fails with `InvalidArgument` and produces
no buffer. -/
def create (format : ETextureFormat) (baseWidth baseHeight mipLevelCount : Nat) :
    Except Status Texture2DBuffer :=
  match bytesPerTexel format with
  | none => .error .invalidArgument
  | some n =>
    if baseWidth = 0 ∨ baseHeight = 0 ∨ mipLevelCount = 0 then
      .error .invalidArgument
    else
      .ok { format := format
            baseWidth := baseWidth
            baseHeight := baseHeight
            mipLevelCount := mipLevelCount
            levels := (List.range mipLevelCount).map fun i =>
              List.replicate (mipLevelDim baseWidth i * mipLevelDim baseHeight i * n) 0 }

/-- `getMipLevelCount()`: the level count fixed at construction; no
failure mode. -/
def Texture2DBuffer.getMipLevelCount (b : Texture2DBuffer) : Nat :=
  b.mipLevelCount

/-- `getTexelFormat()`: the texel format provided at creation. -/
def Texture2DBuffer.getTexelFormat (b : Texture2DBuffer) : ETextureFormat :=
  b.format

/-- Modelled from the spec: `getMipLevelSize(mipLevel) -> (width, height)`
(§4.2): the derived geometry of the level, failing with `InvalidMipLevel`
when `mipLevel ≥ mipLevelCount`. -/
def Texture2DBuffer.getMipLevelSize (b : Texture2DBuffer) (mipLevel : Nat) :
    Except Status (Nat × Nat) :=
  if mipLevel < b.mipLevelCount then
    .ok (b.levelWidth mipLevel, b.levelHeight mipLevel)
  else
    .error .invalidMipLevel

/-- Modelled from the spec: `getMipLevelDataSizeInBytes(mipLevel)` (§4.2):
the byte size of the level's storage, `0` if `mipLevel` is out of range;
this query never fails — it signals invalidity via the zero sentinel. -/
def Texture2DBuffer.getMipLevelDataSizeInBytes (b : Texture2DBuffer) (mipLevel : Nat) : Nat :=
  if mipLevel < b.mipLevelCount then
    b.levelWidth mipLevel * b.levelHeight mipLevel * b.bpt
  else
    0

/-- A single byte-copy loop modelling `memcpy(dst + dstOff, src + srcOff,
count)` on byte lists: byte `dstOff + i` of the destination is replaced by
source byte `srcOff + i` for every `i < count` (a source index beyond the
list reads as `0`, a case the operations only reach when the caller breaks
the documented source-size obligation). -/
def memcpyBytes (dst src : List Nat) (dstOff srcOff : Nat) : Nat → List Nat
  | 0 => dst
  | n + 1 => (memcpyBytes dst src dstOff srcOff n).set (dstOff + n) (src.getD (srcOff + n) 0)

/-- Modelled from the spec: the row-by-row copy at the heart of `setData`
(§4.2): row `r` of the source rectangle (`w * ts` bytes starting at source
byte `r * (w * ts)`) is copied into the level storage at texel offset
`(oy + r) * lw + ox`, i.e. using the destination level's full row stride
`lw * ts` where `lw` is the level width and `ts` the texel byte size.
The last argument is the number of rows copied so far. -/
def writeRegionRows (dst src : List Nat) (lw ts ox oy w : Nat) : Nat → List Nat
  | 0 => dst
  | r + 1 =>
    memcpyBytes (writeRegionRows dst src lw ts ox oy w r) src
      (((oy + r) * lw + ox) * ts) (r * (w * ts)) (w * ts)

/-- Modelled from the spec: `setData(sourceBytes, mipLevel, offsetX,
offsetY, width, height)` (§4.2): fails with `InvalidMipLevel` if
`mipLevel ≥ mipLevelCount`, with `RegionOutOfBounds` if
`offsetX + width > levelWidth` or `offsetY + height > levelHeight`,
leaving the buffer untouched in either case; otherwise copies the source
rectangle row by row into the level's storage and succeeds.  The returned
pair is the reported status and the buffer state after the call. -/
def Texture2DBuffer.setData (b : Texture2DBuffer) (data : List Nat)
    (mipLevel offsetX offsetY width height : Nat) : Status × Texture2DBuffer :=
  if b.mipLevelCount ≤ mipLevel then
    (.invalidMipLevel, b)
  else if b.levelWidth mipLevel < offsetX + width ∨
          b.levelHeight mipLevel < offsetY + height then
    (.regionOutOfBounds, b)
  else
    let newLevel := writeRegionRows (b.levels.getD mipLevel []) data
      (b.levelWidth mipLevel) b.bpt offsetX offsetY width height
    (.statusOK, { b with levels := b.levels.set mipLevel newLevel })

/-- Modelled from the spec: `getMipLevelData(mipLevel, destinationBuffer,
destinationBufferSize)` (§4.2): fails with `InvalidMipLevel` if the level
is out of range; otherwise copies `min(destinationBufferSize,
getMipLevelDataSizeInBytes(mipLevel))` bytes of the level's full stored
content, from the start of the level's storage, into the caller's buffer
(modelled as the returned byte list). -/
def Texture2DBuffer.getMipLevelData (b : Texture2DBuffer)
    (mipLevel bufferSize : Nat) : Except Status (List Nat) :=
  if mipLevel < b.mipLevelCount then
    .ok ((b.levels.getD mipLevel []).take
      (min bufferSize (b.getMipLevelDataSizeInBytes mipLevel)))
  else
    .error .invalidMipLevel

/-- Structural well-formedness of a buffer, as `create` establishes it:
the storage list has one entry per mip level, the format resolves to a
positive texel byte size, and level `i`'s storage holds exactly
`width_i * height_i * bytesPerTexel` bytes. -/
def Texture2DBuffer.wellFormed (b : Texture2DBuffer) : Prop :=
  b.levels.length = b.mipLevelCount ∧
  1 ≤ b.bpt ∧
  ∀ i, i < b.mipLevelCount →
    (b.levels.getD i []).length = b.levelWidth i * b.levelHeight i * b.bpt

instance (b : Texture2DBuffer) : Decidable b.wellFormed := by
  unfold Texture2DBuffer.wellFormed
  infer_instance

/-- The operations the public interface exposes on a buffer, used to state
which of them can mutate the buffer's observable state. -/
inductive TexBufferOp where
  | opSetData (data : List Nat) (mipLevel offsetX offsetY width height : Nat)
  | opGetMipLevelCount
  | opGetMipLevelSize (mipLevel : Nat)
  | opGetMipLevelDataSizeInBytes (mipLevel : Nat)
  | opGetTexelFormat
  | opGetMipLevelData (mipLevel bufferSize : Nat)
deriving DecidableEq

/-- Whether the operation is the mutator `setData`. -/
def TexBufferOp.isSetData : TexBufferOp → Bool
  | .opSetData .. => true
  | _ => false

/-- The buffer state after an operation: `setData` yields its updated
buffer; every other operation is declared `const` in the source header — a
pure query whose post-state is its pre-state. -/
def applyOp (b : Texture2DBuffer) : TexBufferOp → Texture2DBuffer
  | .opSetData data mipLevel ox oy w h => (b.setData data mipLevel ox oy w h).2
  | .opGetMipLevelCount => b
  | .opGetMipLevelSize _ => b
  | .opGetMipLevelDataSizeInBytes _ => b
  | .opGetTexelFormat => b
  | .opGetMipLevelData _ _ => b

/-- The concrete buffer `create(RGBA8, 8, 8, 4)` produces (§8's example):
level sizes 8×8, 4×4, 2×2, 1×1 at 4 bytes per texel. -/
def demoBuffer : Texture2DBuffer :=
  { format := .rgba8
    baseWidth := 8
    baseHeight := 8
    mipLevelCount := 4
    levels := [List.replicate 256 0, List.replicate 64 0,
               List.replicate 16 0, List.replicate 4 0] }

/-- A 1×1 single-level RGBA8 buffer holding one texel of known bytes. -/
def byteBuffer : Texture2DBuffer :=
  { format := .rgba8
    baseWidth := 1
    baseHeight := 1
    mipLevelCount := 1
    levels := [[10, 20, 30, 40]] }

/-- A 2×2 single-level R8 buffer holding four known one-byte texels. -/
def gridBuffer : Texture2DBuffer :=
  { format := .r8
    baseWidth := 2
    baseHeight := 2
    mipLevelCount := 1
    levels := [[1, 2, 3, 4]] }

end Ramses

namespace RamsesInternal

/-- `SceneId = StronglyTypedValue<UInt64, 0, SceneIdTag>`: a strongly
typed wrapper around a `UInt64` value whose equality compares the wrapped
values (the `UInt64` is modelled as a `Nat`). -/
structure SceneId where
  value : Nat
deriving DecidableEq

/-- `SceneInfo` from `SceneAPI/SceneId.h`: a scene identifier together
with a friendly name (`ramses_internal::String`, modelled by its character
content, compared componentwise). -/
structure SceneInfo where
  sceneID : SceneId
  friendlyName : List Char
deriving DecidableEq

/-- `operator==(const SceneInfo&, const SceneInfo&)` from
`SceneAPI/SceneId.h`: `a.sceneID == b.sceneID && a.friendlyName ==
b.friendlyName`. -/
def sceneInfoEq (a b : SceneInfo) : Bool :=
  a.sceneID == b.sceneID && a.friendlyName == b.friendlyName

/-- `operator!=(const SceneInfo&, const SceneInfo&)` from
`SceneAPI/SceneId.h`: `!(a == b)`. -/
def sceneInfoNe (a b : SceneInfo) : Bool :=
  !(sceneInfoEq a b)

end RamsesInternal

namespace Ramses

/-- Every format the Texel Format Table resolves has a positive byte size. -/
theorem bytesPerTexel_pos (f : ETextureFormat) (n : Nat)
    (hf : bytesPerTexel f = some n) : 1 ≤ n := by
  cases f <;> simp [bytesPerTexel] at hf <;> omega

/-- A successful `create` fixes the requested format, base size and level
count in the buffer, and certifies the preconditions held. -/
theorem create_ok (f : ETextureFormat) (w h c : Nat) (b : Texture2DBuffer)
    (hc : create f w h c = .ok b) :
    b.format = f ∧ b.baseWidth = w ∧ b.baseHeight = h ∧ b.mipLevelCount = c ∧
    1 ≤ w ∧ 1 ≤ h ∧ 1 ≤ c := by
  unfold create at hc
  split at hc
  · exact absurd hc (by simp)
  · rename_i n hsome
    split at hc
    · exact absurd hc (by simp)
    · rename_i hnz
      injection hc with hc
      subst hc
      refine ⟨rfl, rfl, rfl, rfl, ?_, ?_, ?_⟩ <;> omega

/-- A successful `create` yields a well-formed buffer: one storage entry
per level, a positive texel size, and level `i` holding exactly
`width_i * height_i * bytesPerTexel` bytes. -/
theorem create_wellFormed (f : ETextureFormat) (w h c : Nat) (b : Texture2DBuffer)
    (hc : create f w h c = .ok b) : b.wellFormed := by
  unfold create at hc
  split at hc
  · exact absurd hc (by simp)
  · rename_i n hsome
    split at hc
    · exact absurd hc (by simp)
    · injection hc with hc
      subst hc
      have hbpt : Texture2DBuffer.bpt
          { format := f, baseWidth := w, baseHeight := h, mipLevelCount := c,
            levels := (List.range c).map fun i =>
              List.replicate (mipLevelDim w i * mipLevelDim h i * n) 0 } = n := by
        simp [Texture2DBuffer.bpt, hsome]
      refine ⟨by simp, ?_, ?_⟩
      · rw [hbpt]
        exact bytesPerTexel_pos f n hsome
      · intro i hi
        rw [hbpt]
        simp only [List.getD_eq_getElem?_getD, List.getElem?_map, List.getElem?_range hi]
        simp [Texture2DBuffer.levelWidth, Texture2DBuffer.levelHeight]

/-- C1: for every buffer created with `mipLevelCount ≥ 1` and base size
`(w, h)` with `w, h ≥ 1`, and every level `i < mipLevelCount`,
`getMipLevelSize(i)` returns exactly `(max(1, w >> i), max(1, h >> i))`;
in particular `getMipLevelSize(0)` returns `(w, h)`. -/
theorem getMipLevelSize_derived (f : ETextureFormat) (w h c : Nat)
    (b : Texture2DBuffer) (hc : create f w h c = .ok b) (i : Nat) (hi : i < c) :
    b.getMipLevelSize i = .ok (max 1 (w >>> i), max 1 (h >>> i)) ∧
    b.getMipLevelSize 0 = .ok (w, h) := by
  obtain ⟨hf, hw, hh, hcnt, hw1, hh1, hc1⟩ := create_ok f w h c b hc
  constructor
  · unfold Texture2DBuffer.getMipLevelSize
    rw [if_pos (by omega)]
    simp [Texture2DBuffer.levelWidth, Texture2DBuffer.levelHeight, mipLevelDim, hw, hh]
  · unfold Texture2DBuffer.getMipLevelSize
    rw [if_pos (by omega)]
    simp only [Texture2DBuffer.levelWidth, Texture2DBuffer.levelHeight, mipLevelDim,
      Nat.shiftRight_zero, hw, hh]
    rw [Nat.max_eq_right hw1, Nat.max_eq_right hh1]

/-- Witness for C1 at `create(RGBA8, 8, 8, 4)` and level 2 (and level 0). -/
theorem getMipLevelSize_derived_witness :
    demoBuffer.getMipLevelSize 2 = .ok (2, 2) ∧
    demoBuffer.getMipLevelSize 0 = .ok (8, 8) := by
  have h := getMipLevelSize_derived .rgba8 8 8 4 demoBuffer (by rfl) 2 (by decide)
  simpa using h

/-- C3: `getMipLevelDataSizeInBytes(mipLevel)` equals
`width_i * height_i * bytesPerTexel(format)` for every
`mipLevel < mipLevelCount` and `0` for every `mipLevel ≥ mipLevelCount`. -/
theorem getMipLevelDataSizeInBytes_spec (b : Texture2DBuffer) (n : Nat)
    (hf : bytesPerTexel b.format = some n) (mipLevel : Nat) :
    (mipLevel < b.mipLevelCount →
      b.getMipLevelDataSizeInBytes mipLevel =
        mipLevelDim b.baseWidth mipLevel * mipLevelDim b.baseHeight mipLevel * n) ∧
    (b.mipLevelCount ≤ mipLevel → b.getMipLevelDataSizeInBytes mipLevel = 0) := by
  constructor
  · intro hlt
    unfold Texture2DBuffer.getMipLevelDataSizeInBytes
    rw [if_pos hlt]
    simp [Texture2DBuffer.levelWidth, Texture2DBuffer.levelHeight, Texture2DBuffer.bpt, hf]
  · intro hge
    unfold Texture2DBuffer.getMipLevelDataSizeInBytes
    rw [if_neg (by omega)]

/-- Witness for C3 at `create(RGBA8, 8, 8, 4)`: level 2 has `2*2*4 = 16`
bytes, level 4 is out of range and reports `0`. -/
theorem getMipLevelDataSizeInBytes_spec_witness :
    demoBuffer.getMipLevelDataSizeInBytes 2 = 16 ∧
    demoBuffer.getMipLevelDataSizeInBytes 4 = 0 := by
  constructor
  · have h := (getMipLevelDataSizeInBytes_spec demoBuffer 4 (by decide) 2).1 (by decide)
    simpa using h
  · exact (getMipLevelDataSizeInBytes_spec demoBuffer 4 (by decide) 4).2 (by decide)

/-- C4: for every `mipLevel ≥ mipLevelCount`, `getMipLevelSize` fails with
`InvalidMipLevel`, while `getMipLevelDataSizeInBytes` — which never fails
for any level, being a total function into the naturals — signals the same
invalid level only through the sentinel value `0`. -/
theorem invalid_level_asymmetry (b : Texture2DBuffer) (mipLevel : Nat)
    (hge : b.mipLevelCount ≤ mipLevel) :
    b.getMipLevelSize mipLevel = .error .invalidMipLevel ∧
    b.getMipLevelDataSizeInBytes mipLevel = 0 := by
  constructor
  · unfold Texture2DBuffer.getMipLevelSize
    rw [if_neg (by omega)]
  · unfold Texture2DBuffer.getMipLevelDataSizeInBytes
    rw [if_neg (by omega)]

/-- Witness for C4 at `create(RGBA8, 8, 8, 4)` and level 4. -/
theorem invalid_level_asymmetry_witness :
    demoBuffer.getMipLevelSize 4 = .error .invalidMipLevel ∧
    demoBuffer.getMipLevelDataSizeInBytes 4 = 0 :=
  invalid_level_asymmetry demoBuffer 4 (by decide)

/-- C5: `setData` fails with `InvalidMipLevel` whenever
`mipLevel ≥ mipLevelCount` and with `RegionOutOfBounds` whenever the
rectangle exceeds the (existing) level's geometry — in particular whenever
`offsetX + width > levelWidth` or `offsetY + height > levelHeight` — and
on any such failure the buffer, with every stored byte of every level, is
left exactly as it was before the call. -/
theorem setData_failure_frame (b : Texture2DBuffer) (data : List Nat)
    (mipLevel ox oy w h : Nat) :
    (b.mipLevelCount ≤ mipLevel →
      b.setData data mipLevel ox oy w h = (.invalidMipLevel, b)) ∧
    (mipLevel < b.mipLevelCount →
      (b.levelWidth mipLevel < ox + w ∨ b.levelHeight mipLevel < oy + h) →
      b.setData data mipLevel ox oy w h = (.regionOutOfBounds, b)) := by
  constructor
  · intro hge
    unfold Texture2DBuffer.setData
    rw [if_pos hge]
  · intro hlt hrect
    unfold Texture2DBuffer.setData
    rw [if_neg (by omega), if_pos hrect]

/-- Witness for C5: on the single-level 2×2 buffer, level 5 is invalid and
the rectangle `(1,0,2,1)` crosses the right edge; both calls fail with the
right kind and return the buffer unchanged. -/
theorem setData_failure_frame_witness :
    gridBuffer.setData [7] 5 0 0 1 1 = (.invalidMipLevel, gridBuffer) ∧
    gridBuffer.setData [7, 7] 0 1 0 2 1 = (.regionOutOfBounds, gridBuffer) :=
  ⟨(setData_failure_frame gridBuffer [7] 5 0 0 1 1).1 (by decide),
   (setData_failure_frame gridBuffer [7, 7] 0 1 0 2 1).2 (by decide) (by decide)⟩

/-- C6: for every valid `mipLevel`, `getMipLevelData` copies exactly
`min(destinationBufferSize, getMipLevelDataSizeInBytes(mipLevel))` bytes,
taken from the start of the level's storage; a destination smaller than
the level silently truncates and still succeeds. -/
theorem getMipLevelData_copies_min (b : Texture2DBuffer) (mipLevel bufferSize : Nat)
    (hmip : mipLevel < b.mipLevelCount)
    (hlen : (b.levels.getD mipLevel []).length = b.getMipLevelDataSizeInBytes mipLevel) :
    b.getMipLevelData mipLevel bufferSize =
      .ok ((b.levels.getD mipLevel []).take
        (min bufferSize (b.getMipLevelDataSizeInBytes mipLevel))) ∧
    ((b.levels.getD mipLevel []).take
        (min bufferSize (b.getMipLevelDataSizeInBytes mipLevel))).length =
      min bufferSize (b.getMipLevelDataSizeInBytes mipLevel) := by
  constructor
  · unfold Texture2DBuffer.getMipLevelData
    rw [if_pos hmip]
  · rw [List.length_take, hlen]
    omega

/-- Witness for C6: reading level 0 of the 1×1 RGBA8 buffer into a 2-byte
destination copies its first two bytes. -/
theorem getMipLevelData_copies_min_witness :
    byteBuffer.getMipLevelData 0 2 =
      .ok ((byteBuffer.levels.getD 0 []).take
        (min 2 (byteBuffer.getMipLevelDataSizeInBytes 0))) ∧
    ((byteBuffer.levels.getD 0 []).take
        (min 2 (byteBuffer.getMipLevelDataSizeInBytes 0))).length =
      min 2 (byteBuffer.getMipLevelDataSizeInBytes 0) :=
  getMipLevelData_copies_min byteBuffer 0 2 (by decide) (by decide)

/-- C8: `create` fails with `InvalidArgument` — producing no buffer at all
— whenever `baseWidth = 0`, `baseHeight = 0`, `mipLevelCount = 0`, or the
format is not resolved by the Texel Format Table. -/
theorem create_invalid_argument (f : ETextureFormat) (w h c : Nat)
    (hbad : w = 0 ∨ h = 0 ∨ c = 0 ∨ bytesPerTexel f = none) :
    create f w h c = .error .invalidArgument := by
  unfold create
  split
  · rfl
  · rename_i n hsome
    have hcond : w = 0 ∨ h = 0 ∨ c = 0 := by
      rcases hbad with hbad | hbad | hbad | hbad
      · exact Or.inl hbad
      · exact Or.inr (Or.inl hbad)
      · exact Or.inr (Or.inr hbad)
      · rw [hsome] at hbad
        exact absurd hbad (by simp)
    rw [if_pos hcond]

/-- Witness for C8: a zero base width, a zero level count, and the
unresolved block-compressed format each make `create` fail. -/
theorem create_invalid_argument_witness :
    create .rgba8 0 4 1 = .error .invalidArgument ∧
    create .rgba8 4 4 0 = .error .invalidArgument ∧
    create .etc2rgb 4 4 1 = .error .invalidArgument :=
  ⟨create_invalid_argument .rgba8 0 4 1 (by decide),
   create_invalid_argument .rgba8 4 4 0 (by decide),
   create_invalid_argument .etc2rgb 4 4 1 (by decide)⟩

end Ramses

namespace RamsesInternal

/-- C10: for every pair of `SceneInfo` values, `operator!=` returns
exactly the negation of `operator==`; `operator==` holds if and only if
the `sceneID` components are equal and the `friendlyName` components are
equal; and exactly one of the two operators returns `true` on any pair. -/
theorem sceneInfo_ne_is_not_eq (a b : SceneInfo) :
    sceneInfoNe a b = !(sceneInfoEq a b) ∧
    (sceneInfoEq a b = true ↔ a.sceneID = b.sceneID ∧ a.friendlyName = b.friendlyName) ∧
    ((sceneInfoEq a b = true ∧ sceneInfoNe a b = false) ∨
      (sceneInfoEq a b = false ∧ sceneInfoNe a b = true)) := by
  refine ⟨rfl, ?_, ?_⟩
  · simp [sceneInfoEq]
  · cases heq : sceneInfoEq a b
    · right
      exact ⟨rfl, by simp [sceneInfoNe, heq]⟩
    · left
      exact ⟨rfl, by simp [sceneInfoNe, heq]⟩

end RamsesInternal

namespace Ramses

/-- `memcpyBytes` preserves the destination length. -/
theorem memcpyBytes_length (dst src : List Nat) (dstOff srcOff : Nat) (n : Nat) :
    (memcpyBytes dst src dstOff srcOff n).length = dst.length := by
  induction n with
  | zero => rfl
  | succ n ih => simp [memcpyBytes, ih]

/-- Byte-level characterization of `memcpyBytes`: inside the copied window
the destination holds the corresponding source byte, outside it the
original byte. -/
theorem memcpyBytes_getD (dst src : List Nat) (dstOff srcOff : Nat) (n : Nat)
    (hle : dstOff + n ≤ dst.length) (j : Nat) :
    (memcpyBytes dst src dstOff srcOff n).getD j 0 =
      if dstOff ≤ j ∧ j < dstOff + n then src.getD (srcOff + (j - dstOff)) 0
      else dst.getD j 0 := by
  induction n with
  | zero =>
    rw [memcpyBytes, if_neg (by omega)]
  | succ n ih =>
    have hle' : dstOff + n ≤ dst.length := by omega
    rw [memcpyBytes, List.getD_eq_getElem?_getD]
    by_cases hj : j = dstOff + n
    · subst hj
      rw [List.getElem?_set_eq_of_lt _ (by rw [memcpyBytes_length]; omega)]
      rw [if_pos (by omega)]
      have hidx : srcOff + (dstOff + n - dstOff) = srcOff + n := by omega
      rw [hidx]
      rfl
    · rw [List.getElem?_set_ne (fun hcon => hj hcon.symm), ← List.getD_eq_getElem?_getD,
        ih hle']
      by_cases hin : dstOff ≤ j ∧ j < dstOff + n
      · rw [if_pos hin, if_pos (by omega)]
      · rw [if_neg hin, if_neg (by omega)]

/-- `a * ts ≤ b * ts + k` with `k < ts` holds exactly when `a ≤ b`. -/
theorem mul_le_add_rem_iff (a b k ts : Nat) (hk : k < ts) :
    a * ts ≤ b * ts + k ↔ a ≤ b := by
  constructor
  · intro hle
    by_contra hcon
    push_neg at hcon
    have h2 : (b + 1) * ts ≤ a * ts := Nat.mul_le_mul_right ts (by omega)
    rw [Nat.succ_mul] at h2
    omega
  · intro hab
    have h2 := Nat.mul_le_mul_right ts hab
    omega

/-- `a * ts + k < b * ts` with `k < ts` holds exactly when `a < b`. -/
theorem add_rem_lt_mul_iff (a b k ts : Nat) (hk : k < ts) :
    a * ts + k < b * ts ↔ a < b := by
  constructor
  · intro hlt
    by_contra hcon
    push_neg at hcon
    have h2 : b * ts ≤ a * ts := Nat.mul_le_mul_right ts hcon
    omega
  · intro hab
    have h2 : (a + 1) * ts ≤ b * ts := Nat.mul_le_mul_right ts (by omega)
    rw [Nat.succ_mul] at h2
    omega

/-- A row-major byte position `(ty*lw + tx)*ts + k` lies in the window
that the copy of row `r` writes exactly when the texel `(tx, ty)` lies in
row `oy + r` of the sub-rectangle. -/
theorem row_window_iff (lw ts ox oy w r tx ty k : Nat)
    (hw : ox + w ≤ lw) (htx : tx < lw) (hk : k < ts) :
    (((oy + r) * lw + ox) * ts ≤ (ty * lw + tx) * ts + k ∧
      (ty * lw + tx) * ts + k < ((oy + r) * lw + ox) * ts + w * ts) ↔
    (ty = oy + r ∧ ox ≤ tx ∧ tx < ox + w) := by
  have hsum : ((oy + r) * lw + ox) * ts + w * ts = ((oy + r) * lw + ox + w) * ts := by ring
  rw [hsum, mul_le_add_rem_iff _ _ _ _ hk, add_rem_lt_mul_iff _ _ _ _ hk]
  constructor
  · rintro ⟨h1, h2⟩
    have hty : ty = oy + r := by
      rcases Nat.lt_trichotomy ty (oy + r) with hlt | heq | hgt
      · have h3 : (ty + 1) * lw ≤ (oy + r) * lw := Nat.mul_le_mul_right lw (by omega)
        rw [Nat.succ_mul] at h3
        omega
      · exact heq
      · have h3 : (oy + r + 1) * lw ≤ ty * lw := Nat.mul_le_mul_right lw (by omega)
        rw [Nat.succ_mul] at h3
        omega
    subst hty
    omega
  · rintro ⟨hty, hox, hxw⟩
    subst hty
    omega

/-- The end of a row-copy window stays inside a level of
`lw * lh * ts` bytes when the rectangle fits and the row exists. -/
theorem row_window_bound (lw lh ts ox oy w r : Nat)
    (hw : ox + w ≤ lw) (hr : oy + r < lh) :
    ((oy + r) * lw + ox) * ts + w * ts ≤ lw * lh * ts := by
  have h2 : (oy + r + 1) * lw ≤ lh * lw := Nat.mul_le_mul_right lw (by omega)
  rw [Nat.succ_mul] at h2
  have h1 : ((oy + r) * lw + ox + w) * ts ≤ (lh * lw) * ts :=
    Nat.mul_le_mul_right ts (by omega)
  have h3 : ((oy + r) * lw + ox + w) * ts = ((oy + r) * lw + ox) * ts + w * ts := by ring
  have h4 : lh * lw * ts = lw * lh * ts := by ring
  omega

/-- A row-major byte position of an in-level texel is inside the level's
byte storage. -/
theorem rowmajor_lt_level (lw lh ts tx ty k : Nat)
    (htx : tx < lw) (hty : ty < lh) (hk : k < ts) :
    (ty * lw + tx) * ts + k < lw * lh * ts := by
  have h1 : (ty + 1) * lw ≤ lh * lw := Nat.mul_le_mul_right lw (by omega)
  rw [Nat.succ_mul] at h1
  have h2 : (ty * lw + tx + 1) * ts ≤ (lh * lw) * ts :=
    Nat.mul_le_mul_right ts (by omega)
  rw [Nat.succ_mul] at h2
  have h3 : lh * lw * ts = lw * lh * ts := by ring
  omega

/-- `writeRegionRows` preserves the destination length. -/
theorem writeRegionRows_length (dst src : List Nat) (lw ts ox oy w : Nat) (n : Nat) :
    (writeRegionRows dst src lw ts ox oy w n).length = dst.length := by
  induction n with
  | zero => rfl
  | succ n ih => rw [writeRegionRows, memcpyBytes_length, ih]

/-- Byte-level characterization of the row-by-row sub-rectangle copy: after
copying `n` rows, the byte `k` of texel `(tx, ty)` holds the corresponding
source byte when the texel lies in the already-copied part of the
rectangle and the original byte otherwise. -/
theorem writeRegionRows_getD (dst src : List Nat) (lw lh ts ox oy w : Nat) (n : Nat)
    (hlen : dst.length = lw * lh * ts) (hw : ox + w ≤ lw) (hn : oy + n ≤ lh)
    (tx ty k : Nat) (htx : tx < lw) (hty : ty < lh) (hk : k < ts) :
    (writeRegionRows dst src lw ts ox oy w n).getD ((ty * lw + tx) * ts + k) 0 =
      if ox ≤ tx ∧ tx < ox + w ∧ oy ≤ ty ∧ ty < oy + n then
        src.getD (((ty - oy) * w + (tx - ox)) * ts + k) 0
      else
        dst.getD ((ty * lw + tx) * ts + k) 0 := by
  revert hn
  induction n with
  | zero =>
    intro hn
    rw [writeRegionRows, if_neg (by omega)]
  | succ n ih =>
    intro hn
    rw [writeRegionRows, memcpyBytes_getD _ _ _ _ _
      (by rw [writeRegionRows_length, hlen]; exact row_window_bound lw lh ts ox oy w n hw (by omega))]
    by_cases hrow : ty = oy + n ∧ ox ≤ tx ∧ tx < ox + w
    · rw [if_pos ((row_window_iff lw ts ox oy w n tx ty k hw htx hk).mpr hrow)]
      obtain ⟨hty', hox', hxw'⟩ := hrow
      subst hty'
      rw [if_pos (by omega)]
      obtain ⟨t, rfl⟩ : ∃ t, tx = ox + t := ⟨tx - ox, by omega⟩
      have e1 : ((oy + n) * lw + (ox + t)) * ts = ((oy + n) * lw + ox) * ts + t * ts := by
        ring
      rw [e1]
      have e2 : ((oy + n) * lw + ox) * ts + t * ts + k - ((oy + n) * lw + ox) * ts =
          t * ts + k := by omega
      rw [e2]
      have e3 : oy + n - oy = n := by omega
      have e4 : ox + t - ox = t := by omega
      rw [e3, e4]
      have e5 : n * (w * ts) + (t * ts + k) = (n * w + t) * ts + k := by ring
      rw [e5]
    · rw [if_neg (fun hc => hrow ((row_window_iff lw ts ox oy w n tx ty k hw htx hk).mp hc))]
      rw [ih (by omega)]
      by_cases hin : ox ≤ tx ∧ tx < ox + w ∧ oy ≤ ty ∧ ty < oy + n
      · rw [if_pos hin, if_pos (by omega)]
      · rw [if_neg hin, if_neg (fun hc => hrow ⟨by omega, hc.1, hc.2.1⟩)]

/-- C2: on a well-formed buffer, a successful `setData` of pattern bytes
into an in-bounds sub-rectangle of a valid level, followed by
`getMipLevelData` of the full level, returns exactly the level's stored
bytes, and — addressing each stored byte row-major as byte `k` of texel
`(tx, ty)` with the level's row stride `levelWidth * bytesPerTexel` — a
byte inside the rectangle now holds the corresponding pattern byte while
every byte outside the rectangle still holds its value from before the
call. -/
theorem setData_roundtrip (b : Texture2DBuffer) (data : List Nat)
    (mipLevel ox oy w h : Nat) (hwf : b.wellFormed)
    (hmip : mipLevel < b.mipLevelCount)
    (hx : ox + w ≤ b.levelWidth mipLevel) (hy : oy + h ≤ b.levelHeight mipLevel)
    (tx ty k : Nat) (htx : tx < b.levelWidth mipLevel)
    (hty : ty < b.levelHeight mipLevel) (hk : k < b.bpt) :
    (b.setData data mipLevel ox oy w h).1 = .statusOK ∧
    ((b.setData data mipLevel ox oy w h).2).getMipLevelData mipLevel
        (b.getMipLevelDataSizeInBytes mipLevel) =
      .ok (((b.setData data mipLevel ox oy w h).2).levels.getD mipLevel []) ∧
    (((b.setData data mipLevel ox oy w h).2).levels.getD mipLevel []).getD
        ((ty * b.levelWidth mipLevel + tx) * b.bpt + k) 0 =
      (if ox ≤ tx ∧ tx < ox + w ∧ oy ≤ ty ∧ ty < oy + h then
        data.getD (((ty - oy) * w + (tx - ox)) * b.bpt + k) 0
      else
        (b.levels.getD mipLevel []).getD
          ((ty * b.levelWidth mipLevel + tx) * b.bpt + k) 0) := by
  obtain ⟨hlevlen, hbpt, hsizes⟩ := hwf
  have hsd : b.setData data mipLevel ox oy w h =
      (.statusOK, { b with levels := (b.levels.set mipLevel
        (writeRegionRows (b.levels.getD mipLevel []) data
          (b.levelWidth mipLevel) b.bpt ox oy w h)) }) := by
    unfold Texture2DBuffer.setData
    rw [if_neg (by omega), if_neg (by omega)]
  rw [hsd]
  have hlvl : ({ b with levels := (b.levels.set mipLevel
      (writeRegionRows (b.levels.getD mipLevel []) data
        (b.levelWidth mipLevel) b.bpt ox oy w h)) } :
        Texture2DBuffer).levels.getD mipLevel [] =
      writeRegionRows (b.levels.getD mipLevel []) data
        (b.levelWidth mipLevel) b.bpt ox oy w h := by
    show (b.levels.set mipLevel _).getD mipLevel [] = _
    rw [List.getD_eq_getElem?_getD, List.getElem?_set_eq_of_lt _ (by omega)]
    rfl
  have hS : b.getMipLevelDataSizeInBytes mipLevel =
      b.levelWidth mipLevel * b.levelHeight mipLevel * b.bpt := by
    unfold Texture2DBuffer.getMipLevelDataSizeInBytes
    rw [if_pos hmip]
  refine ⟨rfl, ?_, ?_⟩
  · show Texture2DBuffer.getMipLevelData _ _ _ = _
    unfold Texture2DBuffer.getMipLevelData
    rw [if_pos (show mipLevel < b.mipLevelCount from hmip)]
    rw [hlvl]
    have hSmod : ({ b with levels := (b.levels.set mipLevel
        (writeRegionRows (b.levels.getD mipLevel []) data
          (b.levelWidth mipLevel) b.bpt ox oy w h)) } :
          Texture2DBuffer).getMipLevelDataSizeInBytes mipLevel =
        b.getMipLevelDataSizeInBytes mipLevel := rfl
    rw [hSmod, Nat.min_self]
    rw [List.take_of_length_le (by rw [writeRegionRows_length, hsizes mipLevel hmip, hS])]
  · rw [hlvl]
    exact writeRegionRows_getD (b.levels.getD mipLevel []) data
      (b.levelWidth mipLevel) (b.levelHeight mipLevel) b.bpt ox oy w h
      (hsizes mipLevel hmip) hx hy tx ty k htx hty hk

/-- Witness for C2 on the 2×2 single-level R8 buffer: writing the one-byte
pattern `[9]` into the rectangle `(1, 1, 1, 1)` and reading the full level
back shows byte `9` at texel `(1, 1)` (which is inside the rectangle). -/
theorem setData_roundtrip_witness :
    (gridBuffer.setData [9] 0 1 1 1 1).1 = .statusOK ∧
    ((gridBuffer.setData [9] 0 1 1 1 1).2).getMipLevelData 0
        (gridBuffer.getMipLevelDataSizeInBytes 0) =
      .ok (((gridBuffer.setData [9] 0 1 1 1 1).2).levels.getD 0 []) ∧
    (((gridBuffer.setData [9] 0 1 1 1 1).2).levels.getD 0 []).getD
        ((1 * gridBuffer.levelWidth 0 + 1) * gridBuffer.bpt + 0) 0 =
      (if 1 ≤ 1 ∧ 1 < 1 + 1 ∧ 1 ≤ 1 ∧ 1 < 1 + 1 then
        ([9] : List Nat).getD (((1 - 1) * 1 + (1 - 1)) * gridBuffer.bpt + 0) 0
      else
        (gridBuffer.levels.getD 0 []).getD
          ((1 * gridBuffer.levelWidth 0 + 1) * gridBuffer.bpt + 0) 0) :=
  setData_roundtrip gridBuffer [9] 0 1 1 1 1 (by decide) (by decide) (by decide)
    (by decide) 1 1 0 (by decide) (by decide) (by decide)

/-- C7 counterexample: the source header declares `getMipLevelData` to
return `status_t` with "StatusOK for success", not a byte count.  On the
1×1 RGBA8 buffer (level size 4 bytes) with a 2-byte destination, the call
copies exactly 2 bytes, yet what it returns to the caller is the status
`StatusOK`, whose `status_t` value `0` is not the byte count `2` the claim
promises. -/
theorem getMipLevelData_status_counterexample :
    byteBuffer.getMipLevelData 0 2 = .ok [10, 20] ∧
    reportedStatus (byteBuffer.getMipLevelData 0 2) = .statusOK ∧
    (reportedStatus (byteBuffer.getMipLevelData 0 2)).code = 0 ∧
    (0 : Nat) ≠ 2 :=
  ⟨rfl, rfl, rfl, by omega⟩

/-- C7 (amended): for every buffer and valid `mipLevel`,
`getMipLevelData` reports the status `StatusOK` to the caller — not the
byte count — while the number of bytes it copies is
`min(destinationBufferSize, levelSize)`; in particular a destination
smaller than the level receives exactly `destinationBufferSize` bytes. -/
theorem getMipLevelData_reports_status (b : Texture2DBuffer)
    (mipLevel bufferSize : Nat) (hmip : mipLevel < b.mipLevelCount)
    (hlen : (b.levels.getD mipLevel []).length = b.getMipLevelDataSizeInBytes mipLevel)
    (hsmall : bufferSize ≤ b.getMipLevelDataSizeInBytes mipLevel) :
    reportedStatus (b.getMipLevelData mipLevel bufferSize) = .statusOK ∧
    b.getMipLevelData mipLevel bufferSize =
      .ok ((b.levels.getD mipLevel []).take bufferSize) ∧
    ((b.levels.getD mipLevel []).take bufferSize).length = bufferSize := by
  have heq : b.getMipLevelData mipLevel bufferSize =
      .ok ((b.levels.getD mipLevel []).take bufferSize) := by
    unfold Texture2DBuffer.getMipLevelData
    rw [if_pos hmip, Nat.min_eq_left hsmall]
  refine ⟨?_, heq, ?_⟩
  · rw [heq]
    rfl
  · rw [List.length_take, hlen]
    omega

/-- Witness for the amended C7 on the 1×1 RGBA8 buffer with a 2-byte
destination: status `StatusOK`, exactly 2 bytes copied. -/
theorem getMipLevelData_reports_status_witness :
    reportedStatus (byteBuffer.getMipLevelData 0 2) = .statusOK ∧
    byteBuffer.getMipLevelData 0 2 =
      .ok ((byteBuffer.levels.getD 0 []).take 2) ∧
    ((byteBuffer.levels.getD 0 []).take 2).length = 2 :=
  getMipLevelData_reports_status byteBuffer 0 2 (by decide) (by decide) (by decide)

/-- The buffer returned by `setData` keeps the format, base size and
level count of its input: only the level storage can change. -/
theorem setData_snd_meta (b : Texture2DBuffer) (data : List Nat)
    (m x y ww hh : Nat) :
    ((b.setData data m x y ww hh).2).format = b.format ∧
    ((b.setData data m x y ww hh).2).baseWidth = b.baseWidth ∧
    ((b.setData data m x y ww hh).2).baseHeight = b.baseHeight ∧
    ((b.setData data m x y ww hh).2).mipLevelCount = b.mipLevelCount := by
  unfold Texture2DBuffer.setData
  split
  · exact ⟨rfl, rfl, rfl, rfl⟩
  · split
    · exact ⟨rfl, rfl, rfl, rfl⟩
    · exact ⟨rfl, rfl, rfl, rfl⟩

/-- Every operation keeps the format, base size and level count. -/
theorem applyOp_meta (b : Texture2DBuffer) (op : TexBufferOp) :
    (applyOp b op).format = b.format ∧
    (applyOp b op).baseWidth = b.baseWidth ∧
    (applyOp b op).baseHeight = b.baseHeight ∧
    (applyOp b op).mipLevelCount = b.mipLevelCount := by
  cases op with
  | opSetData data m x y ww hh => exact setData_snd_meta b data m x y ww hh
  | opGetMipLevelCount => exact ⟨rfl, rfl, rfl, rfl⟩
  | opGetMipLevelSize _ => exact ⟨rfl, rfl, rfl, rfl⟩
  | opGetMipLevelDataSizeInBytes _ => exact ⟨rfl, rfl, rfl, rfl⟩
  | opGetTexelFormat => exact ⟨rfl, rfl, rfl, rfl⟩
  | opGetMipLevelData _ _ => exact ⟨rfl, rfl, rfl, rfl⟩

/-- Any sequence of operations keeps the format, base size and level
count. -/
theorem foldl_applyOp_meta (ops : List TexBufferOp) (b : Texture2DBuffer) :
    (ops.foldl applyOp b).format = b.format ∧
    (ops.foldl applyOp b).baseWidth = b.baseWidth ∧
    (ops.foldl applyOp b).baseHeight = b.baseHeight ∧
    (ops.foldl applyOp b).mipLevelCount = b.mipLevelCount := by
  induction ops generalizing b with
  | nil => exact ⟨rfl, rfl, rfl, rfl⟩
  | cons op ops ih =>
    have h1 := applyOp_meta b op
    have h2 := ih (applyOp b op)
    simp only [List.foldl_cons]
    exact ⟨h2.1.trans h1.1, h2.2.1.trans h1.2.1,
      h2.2.2.1.trans h1.2.2.1, h2.2.2.2.trans h1.2.2.2⟩

/-- C9: only `setData` can change the buffer's stored bytes: every other
operation is a pure query whose post-state equals its pre-state in full
(format, level count, derived geometry and every level's bytes), and after
any sequence of operations on a created buffer, `getTexelFormat` and
`getMipLevelCount` still return exactly the construction values, and every
level's derived geometry is still the one derived from the construction
base size. -/
theorem only_setData_mutates (f : ETextureFormat) (w h c : Nat)
    (b0 : Texture2DBuffer) (hc : create f w h c = .ok b0)
    (ops : List TexBufferOp) (b : Texture2DBuffer) (op : TexBufferOp)
    (hop : op.isSetData = false) (i : Nat) :
    applyOp b op = b ∧
    (ops.foldl applyOp b0).getTexelFormat = f ∧
    (ops.foldl applyOp b0).getMipLevelCount = c ∧
    (ops.foldl applyOp b0).levelWidth i = mipLevelDim w i ∧
    (ops.foldl applyOp b0).levelHeight i = mipLevelDim h i := by
  obtain ⟨hf, hw, hh, hcnt, _, _, _⟩ := create_ok f w h c b0 hc
  obtain ⟨mf, mw, mh, mc⟩ := foldl_applyOp_meta ops b0
  refine ⟨?_, ?_, ?_, ?_, ?_⟩
  · cases op with
    | opSetData data m x y ww hh => simp [TexBufferOp.isSetData] at hop
    | opGetMipLevelCount => rfl
    | opGetMipLevelSize _ => rfl
    | opGetMipLevelDataSizeInBytes _ => rfl
    | opGetTexelFormat => rfl
    | opGetMipLevelData _ _ => rfl
  · show (ops.foldl applyOp b0).format = f
    rw [mf, hf]
  · show (ops.foldl applyOp b0).mipLevelCount = c
    rw [mc, hcnt]
  · show mipLevelDim (ops.foldl applyOp b0).baseWidth i = mipLevelDim w i
    rw [mw, hw]
  · show mipLevelDim (ops.foldl applyOp b0).baseHeight i = mipLevelDim h i
    rw [mh, hh]

/-- Witness for C9 on `create(RGBA8, 8, 8, 4)`: a sample operation
sequence (a write and two reads) leaves format, count and level-1
geometry at their construction values, and a lone query mutates nothing. -/
theorem only_setData_mutates_witness :
    applyOp demoBuffer .opGetTexelFormat = demoBuffer ∧
    ([TexBufferOp.opSetData (List.replicate 4 7) 3 0 0 1 1,
      TexBufferOp.opGetMipLevelCount,
      TexBufferOp.opGetMipLevelData 0 16].foldl applyOp demoBuffer).getTexelFormat =
        .rgba8 ∧
    ([TexBufferOp.opSetData (List.replicate 4 7) 3 0 0 1 1,
      TexBufferOp.opGetMipLevelCount,
      TexBufferOp.opGetMipLevelData 0 16].foldl applyOp demoBuffer).getMipLevelCount =
        4 ∧
    ([TexBufferOp.opSetData (List.replicate 4 7) 3 0 0 1 1,
      TexBufferOp.opGetMipLevelCount,
      TexBufferOp.opGetMipLevelData 0 16].foldl applyOp demoBuffer).levelWidth 1 =
        mipLevelDim 8 1 ∧
    ([TexBufferOp.opSetData (List.replicate 4 7) 3 0 0 1 1,
      TexBufferOp.opGetMipLevelCount,
      TexBufferOp.opGetMipLevelData 0 16].foldl applyOp demoBuffer).levelHeight 1 =
        mipLevelDim 8 1 :=
  only_setData_mutates .rgba8 8 8 4 demoBuffer (by rfl)
    [TexBufferOp.opSetData (List.replicate 4 7) 3 0 0 1 1,
     TexBufferOp.opGetMipLevelCount,
     TexBufferOp.opGetMipLevelData 0 16]
    demoBuffer .opGetTexelFormat (by decide) 1

end Ramses
